import Mathlib

/-!
Shallow embedding of `PIDNet/tools/train_DACS.py` (the training driver
script).  The heavy collaborators (model library, datasets, losses, the
`train`/`validate` routines, the cosine learning-rate computation inside
PyTorch) are out of scope per the design document and are modelled as
black-box parameters of an `Env` record.  The control flow of `main`, its
epoch loop, checkpoint save/resume logic and learning-rate orchestration
are embedded faithfully as pure functions producing an event trace.
-/

namespace TrainDACS

/-- Values that may appear in a torch-saved checkpoint dictionary. -/
inductive PyValue where
  | int (n : Int)
  | rat (q : ℚ)
  | stateDict (id : Nat)
deriving DecidableEq, Repr

/-- The checkpoint record written by `torch.save({...})` at lines 257-264:
keys epoch, best_mIoU, state_dict, optimizer, flops, num_params.
Model and optimizer state dicts are abstracted to numeric identifiers. -/
structure Checkpoint where
  epoch : Nat
  best_mIoU : ℚ
  state_dict : Nat
  optimizer : Nat
  flops : Nat
  num_params : Nat
deriving DecidableEq, Repr

/-- The checkpoint as the literal Python dict written by `torch.save`,
in source order of the keys. -/
def Checkpoint.toDict (c : Checkpoint) : List (String × PyValue) :=
  [ ("epoch", PyValue.int c.epoch),
    ("best_mIoU", PyValue.rat c.best_mIoU),
    ("state_dict", PyValue.stateDict c.state_dict),
    ("optimizer", PyValue.stateDict c.optimizer),
    ("flops", PyValue.int c.flops),
    ("num_params", PyValue.int c.num_params) ]

/-- The six keys of the dict written to checkpoint.pth.tar. -/
def checkpointKeys : List String :=
  ["epoch", "best_mIoU", "state_dict", "optimizer", "flops", "num_params"]

/-- The keys read back from the loaded checkpoint during resume, in code
order: `checkpoint['best_mIoU']` (line 193), `checkpoint['epoch']`
(line 194), `checkpoint['state_dict']` (line 195),
`checkpoint['optimizer']` (line 198), `checkpoint['epoch']` again in the
log message (line 199). -/
def resumeReadKeys : List String :=
  ["best_mIoU", "epoch", "state_dict", "optimizer", "epoch"]

/-- Observable actions performed by the script, in program order. -/
inductive Event where
  | seedRandom (s : Int)
  | seedTorch (s : Int)
  | createLogger
  | createWriter
  | printGpuMismatch
  | buildModel
  | buildSourceDataset
  | buildTargetDataset
  | buildTestDataset
  | buildOptimizer (kind : String)
  | loadCheckpoint (c : Checkpoint)
  | warmupSetLR (lr : ℚ)
  | schedulerStep
  | trainCall (epoch : Nat) (lr : ℚ)
  | validateCall (epoch : Nat) (mean_IoU : ℚ)
  | saveCheckpoint (c : Checkpoint)
  | saveBest (epoch : Nat)
  | saveFinal
deriving DecidableEq, Repr

/-- Exceptions `main` itself can surface in this model: the explicit
`raise ValueError('Only Support SGD optimizer')` at line 182, and
Python's UnboundLocalError for reading a never-assigned local. -/
inductive PyError where
  | valueError (msg : String)
  | unboundLocalError
deriving DecidableEq, Repr

/-- The configuration fields of `config` that the script's control flow
reads (yacs config tree, abstracted to the consulted leaves), plus the
parsed `--seed` argument. -/
structure Config where
  GPUS : List Nat
  seed : Int
  END_EPOCH : Nat
  LR : ℚ
  RESUME : Bool
  SCHEDULER : Bool
  OPTIMIZER : String
  TRAIN_SET : String

/-- Black-box environment: everything delegated to host libraries.
`trainModelUpd`/`trainOptUpd` abstract how one `train` call transforms the
model / optimizer state dicts; `valIoU` is the mean IoU that `validate`
reports at a given epoch; `cosLR` is the learning rate PyTorch's
CosineAnnealingLR yields after a given number of `step()` calls.
Modelled from the spec: these collaborators are external numeric
computation treated as black boxes consumed through their call contracts. -/
structure Env where
  cuda_device_count : Nat
  disk_checkpoint : Option Checkpoint
  init_model_sd : Nat
  init_opt_sd : Nat
  trainModelUpd : Nat → Nat → Nat
  trainOptUpd : Nat → Nat → Nat
  valIoU : Nat → ℚ
  cosLR : Nat → ℚ

/-- State of the torch CosineAnnealingLR object: its construction
parameters and how many times `step()` has been called. -/
structure Scheduler where
  T_max : Int
  eta_min : ℚ
  steps : Nat
deriving DecidableEq, Repr

/-- `warmup_epochs = 5` at line 206. -/
def warmup_epochs : Nat := 5

/-- Default of the `--seed` CLI argument (line 34). -/
def default_seed : Int := 304

/-- Lines 42-48: `adjust_learning_rate` computes
`lr = base_lr * (epoch + 1) / warmup_epochs` and writes it into every
optimizer parameter group, returning the new lr.  The optimizer's
parameter groups are modelled by the list of their learning rates. -/
def adjust_learning_rate (param_groups : List ℚ) (epoch : Nat)
    (warmup : Nat) (base_lr : ℚ) : ℚ × List ℚ :=
  let lr := base_lr * (epoch + 1) / warmup
  (lr, param_groups.map (fun _ => lr))

/-- Substring test on character lists, modelling Python's `in` on strings. -/
def listContains (needle : List Char) : List Char → Bool
  | [] => needle.isEmpty
  | c :: t => needle.isPrefixOf (c :: t) || listContains needle t

/-- Line 204: `real_end = 120+1 if 'camvid' in config.DATASET.TRAIN_SET
else end_epoch`. -/
def real_end (cfg : Config) : Nat :=
  if listContains "camvid".toList cfg.TRAIN_SET.toList then 120 + 1
  else cfg.END_EPOCH

/-- Line 242: the validation guard
`flag_rm == 1 or (epoch % 5 == 0 and epoch < real_end - 100) or
(epoch >= real_end - 100)`, with Python's signed subtraction. -/
def validateCond (flag_rm : Bool) (epoch re : Nat) : Bool :=
  flag_rm
    || (epoch % 5 == 0 && decide ((epoch : Int) < (re : Int) - 100))
    || decide ((epoch : Int) ≥ (re : Int) - 100)

/-- Lines 209-212: the CosineAnnealingLR is constructed with
`T_max = config.TRAIN.END_EPOCH - warmup_epochs` and `eta_min = 1e-6`. -/
def initScheduler (cfg : Config) : Scheduler :=
  { T_max := (cfg.END_EPOCH : Int) - (warmup_epochs : Int)
    eta_min := 1 / 1000000
    steps := 0 }

/-- Mutable locals of the epoch loop: the just-resumed flag `flag_rm`,
`best_mIoU`, the validation metrics variable (`none` while unassigned —
it stands for `mean_IoU` together with `IoU_array`, `pixel_acc`,
`mean_acc`, `inference_time`, which are assigned together), the
optimizer's parameter-group learning rates, the model and optimizer
state-dict identifiers and the scheduler object. -/
structure LoopState where
  flag_rm : Bool
  best_mIoU : ℚ
  mean_IoU : Option ℚ
  param_groups : List ℚ
  model_sd : Nat
  opt_sd : Nat
  sched : Scheduler

/-- One iteration of the `for epoch in range(last_epoch, real_end)` loop
(lines 214-276): learning-rate adjustment, the `train` call, conditional
`validate`, clearing `flag_rm`, the unconditional checkpoint save, the
best-model comparison (which reads the possibly-unassigned `mean_IoU`)
and the conditional best.pt save. -/
def loopBody (cfg : Config) (env : Env) (flops num_params : Nat)
    (epoch : Nat) (st : LoopState) : List Event × Except PyError LoopState :=
  let lrStep :=
    if cfg.SCHEDULER then
      if epoch < warmup_epochs then
        let r := adjust_learning_rate st.param_groups epoch warmup_epochs cfg.LR
        ([Event.warmupSetLR r.1], r.2, st.sched)
      else
        let sched1 : Scheduler := { st.sched with steps := st.sched.steps + 1 }
        let lr := env.cosLR sched1.steps
        ([Event.schedulerStep], st.param_groups.map (fun _ => lr), sched1)
    else
      ([], st.param_groups, st.sched)
  let ev1 := lrStep.1
  let pg1 := lrStep.2.1
  let sched1 := lrStep.2.2
  let current_lr := if cfg.SCHEDULER then pg1.headD 0 else cfg.LR
  let model1 := env.trainModelUpd epoch st.model_sd
  let opt1 := env.trainOptUpd epoch st.opt_sd
  let ev2 := ev1 ++ [Event.trainCall epoch current_lr]
  let doVal := validateCond st.flag_rm epoch (real_end cfg)
  let valStep :=
    if doVal then
      let v := env.valIoU epoch
      (ev2 ++ [Event.validateCall epoch v], some v)
    else (ev2, st.mean_IoU)
  let ev3 := valStep.1
  let mIoU := valStep.2
  let flag1 := if st.flag_rm then false else st.flag_rm
  let c : Checkpoint :=
    { epoch := epoch + 1
      best_mIoU := st.best_mIoU
      state_dict := model1
      optimizer := opt1
      flops := flops
      num_params := num_params }
  let ev4 := ev3 ++ [Event.saveCheckpoint c]
  match mIoU with
  | none => (ev4, Except.error PyError.unboundLocalError)
  | some v =>
    let is_best := decide (st.best_mIoU < v)
    let best1 := if is_best then v else st.best_mIoU
    let ev5 := if is_best then ev4 ++ [Event.saveBest epoch] else ev4
    (ev5, Except.ok
      { flag_rm := flag1
        best_mIoU := best1
        mean_IoU := some v
        param_groups := pg1
        model_sd := model1
        opt_sd := opt1
        sched := sched1 })

/-- Run the epoch loop over a list of epoch indices, collecting the
events of each iteration as one chunk.  An exception aborts the loop. -/
def runChunks (cfg : Config) (env : Env) (flops num_params : Nat) :
    List Nat → LoopState → List (List Event) × Except PyError LoopState
  | [], st => ([], Except.ok st)
  | e :: rest, st =>
    match loopBody cfg env flops num_params e st with
    | (ev, Except.error err) => ([ev], Except.error err)
    | (ev, Except.ok st1) =>
      let r := runChunks cfg env flops num_params rest st1
      (ev :: r.1, r.2)

/-- The epoch indices of `range(last_epoch, real_end)`. -/
def loopEpochs (s t : Nat) : List Nat := List.range' s (t - s)

/-- Outcome of the resume block (lines 186-199): the restored
`best_mIoU`, `last_epoch`, model and optimizer state identifiers, and the
load event if the checkpoint file was present. -/
structure ResumeInfo where
  best_mIoU : ℚ
  last_epoch : Nat
  model_sd : Nat
  opt_sd : Nat
  events : List Event

/-- Lines 186-199: `best_mIoU = 0; last_epoch = 0`; when
`config.TRAIN.RESUME` is set and checkpoint.pth.tar exists, the saved
best score, epoch, model weights and optimizer state are restored. -/
def resumeState (cfg : Config) (env : Env) : ResumeInfo :=
  if cfg.RESUME then
    match env.disk_checkpoint with
    | some c =>
      { best_mIoU := c.best_mIoU
        last_epoch := c.epoch
        model_sd := c.state_dict
        opt_sd := c.optimizer
        events := [Event.loadCheckpoint c] }
    | none =>
      { best_mIoU := 0, last_epoch := 0
        model_sd := env.init_model_sd, opt_sd := env.init_opt_sd
        events := [] }
  else
    { best_mIoU := 0, last_epoch := 0
      model_sd := env.init_model_sd, opt_sd := env.init_opt_sd
      events := [] }

/-- Lines 53-56: `if args.seed > 0: random.seed(args.seed);
torch.manual_seed(args.seed)`. -/
def seedEvents (seed : Int) : List Event :=
  if seed > 0 then [Event.seedRandom seed, Event.seedTorch seed] else []

/-- Construction of the optimizer (lines 168-182): SGD and Adam both
yield a single parameter group at learning rate `config.TRAIN.LR`; any
other value raises `ValueError('Only Support SGD optimizer')`. -/
def buildOpt (cfg : Config) : Except PyError (List ℚ) :=
  if cfg.OPTIMIZER = "sgd" then Except.ok [cfg.LR]
  else if cfg.OPTIMIZER = "adam" then Except.ok [cfg.LR]
  else Except.error (PyError.valueError "Only Support SGD optimizer")

/-- The outcome of one invocation of `main`: the full event trace and
either the Python return value (`some 0` for the early GPU-mismatch
return, `none` for the implicit `return None`) or an uncaught exception. -/
structure MainResult where
  trace : List Event
  result : Except PyError (Option Nat)

/-- The loop state as `main` enters the epoch loop: `flag_rm` is
`config.TRAIN.RESUME` (line 188), `best_mIoU` and the state dicts come
from the resume block, the validation metrics are still unassigned, and
the scheduler is freshly constructed. -/
def initLoopState (cfg : Config) (env : Env) (pg0 : List ℚ) : LoopState :=
  { flag_rm := cfg.RESUME
    best_mIoU := (resumeState cfg env).best_mIoU
    mean_IoU := none
    param_groups := pg0
    model_sd := (resumeState cfg env).model_sd
    opt_sd := (resumeState cfg env).opt_sd
    sched := initScheduler cfg }

/-- The whole of `main` (lines 50-283): seeding, logger and tensorboard
writer construction, the GPU-count check with early return, model and
dataset construction, `flops, num_params = 0, 0` (profiling disabled,
line 164), optimizer construction, checkpoint resume, the epoch loop and
the final_state.pt save. -/
def mainRun (cfg : Config) (env : Env) : MainResult :=
  let pre := seedEvents cfg.seed ++ [Event.createLogger, Event.createWriter]
  if env.cuda_device_count ≠ cfg.GPUS.length then
    { trace := pre ++ [Event.printGpuMismatch], result := Except.ok (some 0) }
  else
    let ev1 := pre ++ [Event.buildModel, Event.buildSourceDataset,
                       Event.buildTargetDataset, Event.buildTestDataset]
    let flops := 0
    let num_params := 0
    match buildOpt cfg with
    | Except.error err => { trace := ev1, result := Except.error err }
    | Except.ok pg0 =>
      let ev2 := ev1 ++ [Event.buildOptimizer cfg.OPTIMIZER]
      let ri := resumeState cfg env
      let st0 := initLoopState cfg env pg0
      let lr := runChunks cfg env flops num_params
                  (loopEpochs ri.last_epoch (real_end cfg)) st0
      match lr.2 with
      | Except.error err =>
        { trace := ev2 ++ ri.events ++ lr.1.flatten, result := Except.error err }
      | Except.ok _ =>
        { trace := ev2 ++ ri.events ++ lr.1.flatten ++ [Event.saveFinal]
          result := Except.ok none }

/-- Checkpoints saved (in order) in an event trace. -/
def checkpointsOf (tr : List Event) : List Checkpoint :=
  tr.filterMap (fun ev => match ev with
    | Event.saveCheckpoint c => some c
    | _ => none)

/-- Mean IoU values reported by validate calls (in order) in a trace. -/
def valsOf (tr : List Event) : List ℚ :=
  tr.filterMap (fun ev => match ev with
    | Event.validateCall _ v => some v
    | _ => none)

/-- Epochs at which best.pt was saved in a trace. -/
def bestSavesOf (tr : List Event) : List Nat :=
  tr.filterMap (fun ev => match ev with
    | Event.saveBest e => some e
    | _ => none)

/-- Count of `train` calls in a trace. -/
def countTrain (tr : List Event) : Nat :=
  tr.countP (fun ev => match ev with
    | Event.trainCall _ _ => true
    | _ => false)

/-- Count of `validate` calls in a trace. -/
def countVal (tr : List Event) : Nat :=
  tr.countP (fun ev => match ev with
    | Event.validateCall _ _ => true
    | _ => false)

/-- Events that only the epoch loop emits. -/
def isLoopEvent : Event → Bool
  | Event.warmupSetLR _ => true
  | Event.schedulerStep => true
  | Event.trainCall _ _ => true
  | Event.validateCall _ _ => true
  | Event.saveCheckpoint _ => true
  | Event.saveBest _ => true
  | _ => false

/-- Construction or artifact-writing events: model/dataset/optimizer
builds and the torch.save calls. -/
def isConstructionOrSave : Event → Bool
  | Event.buildModel => true
  | Event.buildSourceDataset => true
  | Event.buildTargetDataset => true
  | Event.buildTestDataset => true
  | Event.buildOptimizer _ => true
  | Event.saveCheckpoint _ => true
  | Event.saveBest _ => true
  | Event.saveFinal => true
  | _ => false

/-- Seeding events. -/
def isSeedEvent : Event → Bool
  | Event.seedRandom _ => true
  | Event.seedTorch _ => true
  | _ => false

/-- The running best score: initial best folded with all validation
values reported in the given iteration chunks. -/
def runningBest (b0 : ℚ) (chunks : List (List Event)) : ℚ :=
  ((chunks.map valsOf).flatten).foldl max b0

/-! ## Example configurations and environments used to witness theorems -/

/-- A minimal well-formed configuration: one GPU, one epoch, SGD. -/
def cfgA : Config :=
  { GPUS := [0], seed := 304, END_EPOCH := 1, LR := 1, RESUME := false,
    SCHEDULER := false, OPTIMIZER := "sgd", TRAIN_SET := "gta5" }

/-- A matching environment: one CUDA device, no checkpoint on disk,
validate always reports mean IoU 1/2. -/
def envA : Env :=
  { cuda_device_count := 1, disk_checkpoint := none,
    init_model_sd := 0, init_opt_sd := 0,
    trainModelUpd := fun _ s => s + 1, trainOptUpd := fun _ s => s + 1,
    valIoU := fun _ => 1, cosLR := fun _ => 2 }

/-- A loop state as `main` sets it up for a fresh (non-resumed) run. -/
def stA : LoopState :=
  { flag_rm := false, best_mIoU := 0, mean_IoU := none,
    param_groups := [1], model_sd := 0, opt_sd := 0,
    sched := initScheduler cfgA }

/-! ## Helper lemmas about the loop body and the loop -/

theorem mem_checkpointsOf {c : Checkpoint} {l : List Event} :
    c ∈ checkpointsOf l ↔ Event.saveCheckpoint c ∈ l := by
  unfold checkpointsOf
  rw [List.mem_filterMap]
  constructor
  · rintro ⟨a, ha, hfa⟩
    cases a <;> simp_all
  · intro h
    exact ⟨Event.saveCheckpoint c, h, rfl⟩

theorem loopBody_checkpoints (cfg : Config) (env : Env) (f n e : Nat)
    (st : LoopState) :
    checkpointsOf (loopBody cfg env f n e st).1 =
      [{ epoch := e + 1, best_mIoU := st.best_mIoU,
         state_dict := env.trainModelUpd e st.model_sd,
         optimizer := env.trainOptUpd e st.opt_sd,
         flops := f, num_params := n }] := by
  unfold loopBody
  by_cases hs : cfg.SCHEDULER <;>
    by_cases hw : e < warmup_epochs <;>
      by_cases hv : validateCond st.flag_rm e (real_end cfg) = true <;>
        cases hm : st.mean_IoU <;>
          simp [hs, hw, hv, hm, checkpointsOf, List.filterMap_append] <;>
          try (split <;> simp [checkpointsOf])

theorem loopBody_countTrain (cfg : Config) (env : Env) (f n e : Nat)
    (st : LoopState) : countTrain (loopBody cfg env f n e st).1 = 1 := by
  unfold loopBody
  by_cases hs : cfg.SCHEDULER <;>
    by_cases hw : e < warmup_epochs <;>
      by_cases hv : validateCond st.flag_rm e (real_end cfg) = true <;>
        cases hm : st.mean_IoU <;>
          simp [hs, hw, hv, hm, countTrain, List.countP_append, List.countP_cons] <;>
          try (split <;> simp [countTrain, List.countP_append, List.countP_cons])

theorem loopBody_countVal (cfg : Config) (env : Env) (f n e : Nat)
    (st : LoopState) :
    countVal (loopBody cfg env f n e st).1 =
      if validateCond st.flag_rm e (real_end cfg) then 1 else 0 := by
  unfold loopBody
  by_cases hs : cfg.SCHEDULER <;>
    by_cases hw : e < warmup_epochs <;>
      by_cases hv : validateCond st.flag_rm e (real_end cfg) = true <;>
        cases hm : st.mean_IoU <;>
          simp [hs, hw, hv, hm, countVal, List.countP_append, List.countP_cons] <;>
          try (split <;> simp [countVal, List.countP_append, List.countP_cons])

theorem loopBody_valsOf (cfg : Config) (env : Env) (f n e : Nat)
    (st : LoopState) :
    valsOf (loopBody cfg env f n e st).1 =
      if validateCond st.flag_rm e (real_end cfg) then [env.valIoU e] else [] := by
  unfold loopBody
  by_cases hs : cfg.SCHEDULER <;>
    by_cases hw : e < warmup_epochs <;>
      by_cases hv : validateCond st.flag_rm e (real_end cfg) = true <;>
        cases hm : st.mean_IoU <;>
          simp [hs, hw, hv, hm, valsOf, List.filterMap_append] <;>
          try (split <;> simp [valsOf, List.filterMap_append])

theorem loopBody_flag_cleared (cfg : Config) (env : Env) (f n e : Nat)
    (st st1 : LoopState)
    (h : (loopBody cfg env f n e st).2 = Except.ok st1) :
    st1.flag_rm = false := by
  unfold loopBody at h
  by_cases hs : cfg.SCHEDULER <;>
    by_cases hw : e < warmup_epochs <;>
      by_cases hv : validateCond st.flag_rm e (real_end cfg) = true <;>
        cases hm : st.mean_IoU <;>
          (try simp [hs, hw, hv, hm] at h) <;>
          (subst h; cases hq : st.flag_rm <;> simp [hq])

theorem loopBody_isLoopEvent (cfg : Config) (env : Env) (f n e : Nat)
    (st : LoopState) :
    ∀ ev ∈ (loopBody cfg env f n e st).1, isLoopEvent ev = true := by
  unfold loopBody
  by_cases hs : cfg.SCHEDULER <;>
    by_cases hw : e < warmup_epochs <;>
      by_cases hv : validateCond st.flag_rm e (real_end cfg) = true <;>
        cases hm : st.mean_IoU <;>
          simp [hs, hw, hv, hm, isLoopEvent] <;>
          try (split <;> simp [isLoopEvent])

theorem loopBody_bestSavesOf (cfg : Config) (env : Env) (f n e : Nat)
    (st : LoopState) :
    bestSavesOf (loopBody cfg env f n e st).1 =
      match (if validateCond st.flag_rm e (real_end cfg) then some (env.valIoU e)
             else st.mean_IoU) with
      | some v => if st.best_mIoU < v then [e] else []
      | none => [] := by
  unfold loopBody
  by_cases hs : cfg.SCHEDULER <;>
    by_cases hw : e < warmup_epochs <;>
      by_cases hv : validateCond st.flag_rm e (real_end cfg) = true <;>
        cases hm : st.mean_IoU <;>
          simp [hs, hw, hv, hm, bestSavesOf, List.filterMap_append] <;>
          try (split <;> simp [bestSavesOf, List.filterMap_append])

theorem loopBody_ok_state (cfg : Config) (env : Env) (f n e : Nat)
    (st st1 : LoopState)
    (h : (loopBody cfg env f n e st).2 = Except.ok st1) :
    ∃ v, (if validateCond st.flag_rm e (real_end cfg) then some (env.valIoU e)
          else st.mean_IoU) = some v
      ∧ st1.best_mIoU = (if st.best_mIoU < v then v else st.best_mIoU)
      ∧ st1.mean_IoU = some v := by
  unfold loopBody at h
  by_cases hs : cfg.SCHEDULER <;>
    by_cases hw : e < warmup_epochs <;>
      by_cases hv : validateCond st.flag_rm e (real_end cfg) = true <;>
        cases hm : st.mean_IoU <;>
          (try simp [hs, hw, hv, hm] at h) <;>
          (subst h; simp [hv, hm])

theorem loopBody_error_spec (cfg : Config) (env : Env) (f n e : Nat)
    (st : LoopState) (err : PyError)
    (h : (loopBody cfg env f n e st).2 = Except.error err) :
    validateCond st.flag_rm e (real_end cfg) = false ∧ st.mean_IoU = none
      ∧ err = PyError.unboundLocalError := by
  unfold loopBody at h
  by_cases hv : validateCond st.flag_rm e (real_end cfg) = true <;>
    cases hm : st.mean_IoU <;>
      by_cases hs : cfg.SCHEDULER <;>
        by_cases hw : e < warmup_epochs <;>
          simp [hs, hw, hv, hm] at h <;>
          simp_all

theorem loopBody_warmup (cfg : Config) (env : Env) (f n e : Nat)
    (st : LoopState) (hs : cfg.SCHEDULER = true) (hw : e < warmup_epochs) :
    Event.warmupSetLR (cfg.LR * (e + 1) / warmup_epochs) ∈ (loopBody cfg env f n e st).1
      ∧ Event.schedulerStep ∉ (loopBody cfg env f n e st).1
      ∧ (∀ st1, (loopBody cfg env f n e st).2 = Except.ok st1 →
          ∀ lr ∈ st1.param_groups, lr = cfg.LR * (e + 1) / warmup_epochs) := by
  refine ⟨?_, ?_, ?_⟩
  · unfold loopBody
    by_cases hv : validateCond st.flag_rm e (real_end cfg) = true <;>
      cases hm : st.mean_IoU <;>
        simp [hs, hw, hv, hm, adjust_learning_rate] <;>
        try (split <;> simp)
  · unfold loopBody
    by_cases hv : validateCond st.flag_rm e (real_end cfg) = true <;>
      cases hm : st.mean_IoU <;>
        simp [hs, hw, hv, hm, adjust_learning_rate] <;>
        try (split <;> simp)
  · intro st1 h
    unfold loopBody at h
    by_cases hv : validateCond st.flag_rm e (real_end cfg) = true <;>
      cases hm : st.mean_IoU <;>
        (try simp [hs, hw, hv, hm] at h) <;>
        (subst h; simp [adjust_learning_rate])

theorem loopBody_schedStep (cfg : Config) (env : Env) (f n e : Nat)
    (st : LoopState) (hs : cfg.SCHEDULER = true) (hw : warmup_epochs ≤ e) :
    Event.schedulerStep ∈ (loopBody cfg env f n e st).1
      ∧ (∀ q, Event.warmupSetLR q ∉ (loopBody cfg env f n e st).1)
      ∧ (∀ st1, (loopBody cfg env f n e st).2 = Except.ok st1 →
          st1.sched.steps = st.sched.steps + 1
            ∧ st1.sched.T_max = st.sched.T_max
            ∧ st1.sched.eta_min = st.sched.eta_min) := by
  have hw1 : ¬ e < warmup_epochs := Nat.not_lt.mpr hw
  refine ⟨?_, ?_, ?_⟩
  · unfold loopBody
    by_cases hv : validateCond st.flag_rm e (real_end cfg) = true <;>
      cases hm : st.mean_IoU <;>
        simp [hs, hw1, hv, hm] <;>
        try (split <;> simp)
  · intro q
    unfold loopBody
    by_cases hv : validateCond st.flag_rm e (real_end cfg) = true <;>
      cases hm : st.mean_IoU <;>
        simp [hs, hw1, hv, hm] <;>
        try (split <;> simp)
  · intro st1 h
    unfold loopBody at h
    by_cases hv : validateCond st.flag_rm e (real_end cfg) = true <;>
      cases hm : st.mean_IoU <;>
        (try simp [hs, hw1, hv, hm] at h) <;>
        (subst h; simp)

theorem loopBody_noSched (cfg : Config) (env : Env) (f n e : Nat)
    (st : LoopState) (hs : cfg.SCHEDULER = false) :
    Event.trainCall e cfg.LR ∈ (loopBody cfg env f n e st).1
      ∧ Event.schedulerStep ∉ (loopBody cfg env f n e st).1
      ∧ (∀ q, Event.warmupSetLR q ∉ (loopBody cfg env f n e st).1) := by
  refine ⟨?_, ?_, fun q => ?_⟩ <;>
    (unfold loopBody
     by_cases hv : validateCond st.flag_rm e (real_end cfg) = true <;>
       cases hm : st.mean_IoU <;>
         simp [hs, hv, hm] <;>
         try (split <;> simp))

theorem validateCond_iff (flag : Bool) (e re : Nat) :
    validateCond flag e re = true ↔
      flag = true ∨ (e % 5 = 0 ∧ (e : Int) < (re : Int) - 100)
        ∨ (re : Int) - 100 ≤ (e : Int) := by
  unfold validateCond
  simp [Bool.or_eq_true, Bool.and_eq_true, decide_eq_true_iff]
  tauto

theorem validateCond_first_epoch (flag : Bool) (re : Nat) :
    validateCond flag 0 re = true := by
  rw [validateCond_iff]
  omega

theorem runChunks_isLoopEvent (cfg : Config) (env : Env) (f n : Nat) :
    ∀ (es : List Nat) (st : LoopState),
      ∀ ev ∈ (runChunks cfg env f n es st).1.flatten, isLoopEvent ev = true := by
  intro es
  induction es with
  | nil => intro st ev hev; simp [runChunks] at hev
  | cons e rest ih =>
    intro st ev hev
    unfold runChunks at hev
    cases hb : loopBody cfg env f n e st with
    | mk evs r =>
      cases r with
      | error err =>
        simp [hb] at hev
        have := loopBody_isLoopEvent cfg env f n e st ev
        rw [hb] at this
        exact this hev
      | ok st1 =>
        simp [hb] at hev
        rcases hev with h | h
        · have := loopBody_isLoopEvent cfg env f n e st ev
          rw [hb] at this
          exact this h
        · exact ih st1 ev (by simpa using h)

theorem runChunks_checkpoint_mem (cfg : Config) (env : Env) (f n : Nat) :
    ∀ (es : List Nat) (st : LoopState) (c : Checkpoint),
      Event.saveCheckpoint c ∈ (runChunks cfg env f n es st).1.flatten →
        c.flops = f ∧ c.num_params = n := by
  intro es
  induction es with
  | nil => intro st c hc; simp [runChunks] at hc
  | cons e rest ih =>
    intro st c hc
    unfold runChunks at hc
    cases hb : loopBody cfg env f n e st with
    | mk evs r =>
      have hmem : Event.saveCheckpoint c ∈ evs → c.flops = f ∧ c.num_params = n := by
        intro h
        have h2 : c ∈ checkpointsOf evs := mem_checkpointsOf.mpr h
        have h3 := loopBody_checkpoints cfg env f n e st
        rw [hb] at h3
        rw [h3] at h2
        simp at h2
        subst h2
        exact ⟨rfl, rfl⟩
      cases r with
      | error err =>
        simp [hb] at hc
        exact hmem hc
      | ok st1 =>
        simp [hb] at hc
        rcases hc with h | h
        · exact hmem h
        · exact ih st1 c (by simpa using h)

theorem runChunks_ok_of_some (cfg : Config) (env : Env) (f n : Nat) :
    ∀ (es : List Nat) (st : LoopState), st.mean_IoU.isSome →
      ∃ st2, (runChunks cfg env f n es st).2 = Except.ok st2
        ∧ st2.mean_IoU.isSome := by
  intro es
  induction es with
  | nil => intro st hsome; exact ⟨st, rfl, hsome⟩
  | cons e rest ih =>
    intro st hsome
    unfold runChunks
    cases hb : loopBody cfg env f n e st with
    | mk evs r =>
      cases r with
      | error err =>
        have := loopBody_error_spec cfg env f n e st err (by rw [hb])
        rw [this.2.1] at hsome
        simp at hsome
      | ok st1 =>
        have hspec := loopBody_ok_state cfg env f n e st st1 (by rw [hb])
        rcases hspec with ⟨v, _, _, hmean⟩
        have : st1.mean_IoU.isSome := by rw [hmean]; rfl
        rcases ih st1 this with ⟨st2, hr, hs2⟩
        exact ⟨st2, by simp [hr], hs2⟩

theorem runChunks_ok_of_first_validates (cfg : Config) (env : Env) (f n : Nat)
    (e : Nat) (rest : List Nat) (st : LoopState)
    (hval : validateCond st.flag_rm e (real_end cfg) = true) :
    ∃ st2, (runChunks cfg env f n (e :: rest) st).2 = Except.ok st2 := by
  unfold runChunks
  cases hb : loopBody cfg env f n e st with
  | mk evs r =>
    cases r with
    | error err =>
      have := loopBody_error_spec cfg env f n e st err (by rw [hb])
      rw [this.1] at hval
      exact absurd hval (by simp)
    | ok st1 =>
      have hspec := loopBody_ok_state cfg env f n e st st1 (by rw [hb])
      rcases hspec with ⟨v, _, _, hmean⟩
      have hs1 : st1.mean_IoU.isSome := by rw [hmean]; rfl
      rcases runChunks_ok_of_some cfg env f n rest st1 hs1 with ⟨st2, hr, _⟩
      exact ⟨st2, by simp [hr]⟩

theorem le_foldl_max (b : ℚ) (l : List ℚ) : b ≤ l.foldl max b := by
  induction l generalizing b with
  | nil => exact le_refl b
  | cons x xs ih => exact le_trans (le_max_left b x) (ih (max b x))

theorem foldl_max_mono {b b1 : ℚ} (l : List ℚ) (h : b ≤ b1) :
    l.foldl max b ≤ l.foldl max b1 := by
  induction l generalizing b b1 with
  | nil => exact h
  | cons x xs ih => exact ih (max_le_max h (le_refl x))

theorem runningBest_nil (b : ℚ) : runningBest b [] = b := rfl

theorem runningBest_cons (b : ℚ) (ch : List Event) (chs : List (List Event)) :
    runningBest b (ch :: chs) = runningBest (List.foldl max b (valsOf ch)) chs := by
  unfold runningBest
  simp [List.foldl_append]

theorem le_runningBest (b : ℚ) (chs : List (List Event)) :
    b ≤ runningBest b chs := by
  unfold runningBest
  exact le_foldl_max b _

theorem runningBest_take_mono (b : ℚ) (chs : List (List Event)) (i j : Nat)
    (hij : i ≤ j) :
    runningBest b (chs.take i) ≤ runningBest b (chs.take j) := by
  induction chs generalizing b i j with
  | nil => simp [runningBest_nil]
  | cons ch rest ih =>
    cases i with
    | zero =>
      simp only [List.take_zero, runningBest_nil]
      exact le_runningBest b _
    | succ i1 =>
      cases j with
      | zero => omega
      | succ j1 =>
        simp only [List.take_succ_cons, runningBest_cons]
        exact ih _ i1 j1 (Nat.succ_le_succ_iff.mp hij)

theorem max_eq_ite (b v : ℚ) : max b v = if b < v then v else b := by
  rw [max_def]
  by_cases h : b < v
  · rw [if_pos h, if_pos (le_of_lt h)]
  · rw [if_neg h]
    by_cases h2 : b ≤ v
    · rw [if_pos h2]
      exact le_antisymm (not_lt.mp h) h2
    · rw [if_neg h2]

theorem loopBody_ok_best (cfg : Config) (env : Env) (f n e : Nat)
    (st st1 : LoopState)
    (hinv : ∀ v, st.mean_IoU = some v → v ≤ st.best_mIoU)
    (h : (loopBody cfg env f n e st).2 = Except.ok st1) :
    st1.best_mIoU = List.foldl max st.best_mIoU (valsOf (loopBody cfg env f n e st).1)
      ∧ (∀ v, st1.mean_IoU = some v → v ≤ st1.best_mIoU)
      ∧ (bestSavesOf (loopBody cfg env f n e st).1 ≠ [] ↔
          ∃ v ∈ valsOf (loopBody cfg env f n e st).1, st.best_mIoU < v) := by
  rcases loopBody_ok_state cfg env f n e st st1 h with ⟨v, hv, hbest, hmean⟩
  rw [loopBody_valsOf, loopBody_bestSavesOf]
  by_cases hval : validateCond st.flag_rm e (real_end cfg) = true
  · rw [if_pos hval] at hv
    injection hv with hv
    subst hv
    refine ⟨?_, ?_, ?_⟩
    · simp [hval, hbest, max_eq_ite]
    · intro w hw
      rw [hmean] at hw
      injection hw with hw
      subst hw
      rw [hbest]
      split
      · exact le_refl _
      · exact not_lt.mp (by assumption)
    · by_cases hlt : st.best_mIoU < env.valIoU e <;> simp [hval, hlt]
  · rw [if_neg hval] at hv
    have hle : v ≤ st.best_mIoU := hinv v hv
    have hnot : ¬ st.best_mIoU < v := not_lt.mpr hle
    refine ⟨?_, ?_, ?_⟩
    · simp [hval, hbest, hnot]
    · intro w hw
      rw [hmean] at hw
      injection hw with hw
      subst hw
      rw [hbest, if_neg hnot]
      exact hle
    · rw [hv]
      simp [hval, hnot]

theorem runChunks_best_invariant (cfg : Config) (env : Env) (f n : Nat) :
    ∀ (es : List Nat) (st : LoopState),
      (∀ v, st.mean_IoU = some v → v ≤ st.best_mIoU) →
      ∀ (i : Nat) (ch : List Event),
        ((runChunks cfg env f n es st).1)[i]? = some ch →
        (checkpointsOf ch).map Checkpoint.best_mIoU
            = [runningBest st.best_mIoU ((runChunks cfg env f n es st).1.take i)]
          ∧ (bestSavesOf ch ≠ [] ↔
              ∃ v ∈ valsOf ch,
                runningBest st.best_mIoU ((runChunks cfg env f n es st).1.take i) < v) := by
  intro es
  induction es with
  | nil =>
    intro st hinv i ch hch
    simp [runChunks] at hch
  | cons e rest ih =>
    intro st hinv i ch hch
    cases hb : loopBody cfg env f n e st with
    | mk evs r =>
      have hck := loopBody_checkpoints cfg env f n e st
      have hvs := loopBody_valsOf cfg env f n e st
      have hbs := loopBody_bestSavesOf cfg env f n e st
      rw [hb] at hck hvs hbs
      cases r with
      | error err =>
        rcases loopBody_error_spec cfg env f n e st err (by rw [hb]) with
          ⟨hvf, hmn, _⟩
        have hchs : (runChunks cfg env f n (e :: rest) st).1 = [evs] := by
          simp only [runChunks, hb]
        rw [hchs] at hch ⊢
        cases i with
        | zero =>
          simp only [List.getElem?_cons_zero, Option.some_inj] at hch
          subst hch
          rw [hvf] at hvs hbs
          simp only [if_neg (Bool.false_ne_true)] at hvs hbs
          rw [hmn] at hbs
          constructor
          · simp [hck, runningBest_nil]
          · simp [hbs, hvs]
        | succ i1 =>
          simp at hch
      | ok st1 =>
        have hok := loopBody_ok_best cfg env f n e st st1 hinv (by rw [hb])
        rw [hb] at hok
        rcases hok with ⟨hb1, hinv1, hbsave⟩
        have hchs : (runChunks cfg env f n (e :: rest) st).1
            = evs :: (runChunks cfg env f n rest st1).1 := by
          simp only [runChunks, hb]
        rw [hchs] at hch ⊢
        cases i with
        | zero =>
          simp only [List.getElem?_cons_zero, Option.some_inj] at hch
          subst hch
          constructor
          · simp [hck, runningBest_nil]
          · simpa [runningBest_nil] using hbsave
        | succ i1 =>
          simp only [List.getElem?_cons_succ] at hch
          have := ih st1 hinv1 i1 ch hch
          rw [List.take_succ_cons, runningBest_cons, ← hb1]
          exact this

theorem validateCond_flag (e re : Nat) : validateCond true e re = true := by
  unfold validateCond
  simp

theorem resumeState_no_resume (cfg : Config) (env : Env)
    (h : cfg.RESUME = false) :
    (resumeState cfg env).last_epoch = 0 ∧ (resumeState cfg env).best_mIoU = 0 := by
  unfold resumeState
  rw [h]
  simp

theorem loopEpochs_nil (s t : Nat) (h : t ≤ s) : loopEpochs s t = [] := by
  unfold loopEpochs
  rw [Nat.sub_eq_zero_of_le h]
  rfl

theorem loopEpochs_cons (s t : Nat) (h : s < t) :
    loopEpochs s t = s :: loopEpochs (s + 1) t := by
  unfold loopEpochs
  have h1 : t - s = (t - (s + 1)) + 1 := by omega
  rw [h1, List.range'_succ]

theorem initLoopState_first_validates (cfg : Config) (env : Env) (pg0 : List ℚ) :
    validateCond (initLoopState cfg env pg0).flag_rm
      (resumeState cfg env).last_epoch (real_end cfg) = true := by
  show validateCond cfg.RESUME (resumeState cfg env).last_epoch (real_end cfg) = true
  cases hr : cfg.RESUME with
  | true => exact validateCond_flag _ _
  | false =>
    rw [(resumeState_no_resume cfg env hr).1]
    exact validateCond_first_epoch _ _

theorem mainRun_loop_ok (cfg : Config) (env : Env) (pg0 : List ℚ) :
    ∃ st2, (runChunks cfg env 0 0
        (loopEpochs (resumeState cfg env).last_epoch (real_end cfg))
        (initLoopState cfg env pg0)).2 = Except.ok st2 := by
  by_cases h : (resumeState cfg env).last_epoch < real_end cfg
  · rw [loopEpochs_cons _ _ h]
    exact runChunks_ok_of_first_validates cfg env 0 0 _ _ _
      (initLoopState_first_validates cfg env pg0)
  · rw [loopEpochs_nil _ _ (Nat.le_of_not_lt h)]
    exact ⟨initLoopState cfg env pg0, rfl⟩

theorem buildOpt_ok_iff (cfg : Config) :
    (∃ pg0, buildOpt cfg = Except.ok pg0) ↔
      cfg.OPTIMIZER = "sgd" ∨ cfg.OPTIMIZER = "adam" := by
  unfold buildOpt
  by_cases h1 : cfg.OPTIMIZER = "sgd" <;>
    by_cases h2 : cfg.OPTIMIZER = "adam" <;>
      simp [h1, h2]

theorem mainRun_result_cases (cfg : Config) (env : Env) :
    (mainRun cfg env).result =
      if env.cuda_device_count ≠ cfg.GPUS.length then Except.ok (some 0)
      else if cfg.OPTIMIZER = "sgd" ∨ cfg.OPTIMIZER = "adam" then Except.ok none
      else Except.error (PyError.valueError "Only Support SGD optimizer") := by
  by_cases hgpu : env.cuda_device_count ≠ cfg.GPUS.length
  · simp [mainRun, hgpu]
  · rw [if_neg hgpu]
    by_cases hopt : cfg.OPTIMIZER = "sgd" ∨ cfg.OPTIMIZER = "adam"
    · rw [if_pos hopt]
      rcases (buildOpt_ok_iff cfg).mpr hopt with ⟨pg0, hpg⟩
      rcases mainRun_loop_ok cfg env pg0 with ⟨st2, hok⟩
      unfold mainRun
      rw [if_neg hgpu, hpg]
      simp only
      rw [hok]
    · rw [if_neg hopt]
      have hbo : buildOpt cfg
          = Except.error (PyError.valueError "Only Support SGD optimizer") := by
        unfold buildOpt
        push_neg at hopt
        rw [if_neg hopt.1, if_neg hopt.2]
      unfold mainRun
      rw [if_neg hgpu, hbo]

theorem mainRun_trace_eq (cfg : Config) (env : Env) (pg0 : List ℚ)
    (hgpu : ¬ env.cuda_device_count ≠ cfg.GPUS.length)
    (hopt : buildOpt cfg = Except.ok pg0) :
    ∃ tail,
      (mainRun cfg env).trace =
        seedEvents cfg.seed
          ++ [Event.createLogger, Event.createWriter, Event.buildModel,
              Event.buildSourceDataset, Event.buildTargetDataset,
              Event.buildTestDataset, Event.buildOptimizer cfg.OPTIMIZER]
          ++ (resumeState cfg env).events
          ++ (runChunks cfg env 0 0
                (loopEpochs (resumeState cfg env).last_epoch (real_end cfg))
                (initLoopState cfg env pg0)).1.flatten
          ++ tail
        ∧ (tail = [] ∨ tail = [Event.saveFinal]) := by
  unfold mainRun
  rw [if_neg hgpu, hopt]
  simp only
  cases hlr : (runChunks cfg env 0 0
      (loopEpochs (resumeState cfg env).last_epoch (real_end cfg))
      (initLoopState cfg env pg0)).2 with
  | error err =>
    refine ⟨[], ?_, Or.inl rfl⟩
    simp
  | ok st2 =>
    refine ⟨[Event.saveFinal], ?_, Or.inr rfl⟩
    simp

theorem resumeState_events_load (cfg : Config) (env : Env) :
    ∀ ev ∈ (resumeState cfg env).events, ∃ c, ev = Event.loadCheckpoint c := by
  unfold resumeState
  by_cases hr : cfg.RESUME
  · rw [if_pos hr]
    cases hd : env.disk_checkpoint with
    | none => simp
    | some c =>
      intro ev hev
      simp at hev
      exact ⟨c, hev⟩
  · rw [if_neg hr]
    simp

theorem loopBody_validateCall_mem (cfg : Config) (env : Env) (f n e : Nat)
    (st : LoopState) (hval : validateCond st.flag_rm e (real_end cfg) = true) :
    Event.validateCall e (env.valIoU e) ∈ (loopBody cfg env f n e st).1 := by
  unfold loopBody
  by_cases hs : cfg.SCHEDULER <;>
    by_cases hw : e < warmup_epochs <;>
      cases hm : st.mean_IoU <;>
        simp [hs, hw, hval, hm] <;>
        try (split <;> simp)

theorem loopBody_saveCheckpoint_eq (cfg : Config) (env : Env) (f n e : Nat)
    (st : LoopState) (c : Checkpoint)
    (h : Event.saveCheckpoint c ∈ (loopBody cfg env f n e st).1) :
    c = { epoch := e + 1, best_mIoU := st.best_mIoU,
          state_dict := env.trainModelUpd e st.model_sd,
          optimizer := env.trainOptUpd e st.opt_sd,
          flops := f, num_params := n } := by
  have h2 : c ∈ checkpointsOf (loopBody cfg env f n e st).1 :=
    mem_checkpointsOf.mpr h
  rw [loopBody_checkpoints] at h2
  simpa using h2

theorem seedEvents_of_nonpos (s : Int) (h : ¬ s > 0) : seedEvents s = [] := by
  unfold seedEvents
  rw [if_neg h]

theorem seedEvents_of_pos (s : Int) (h : s > 0) :
    seedEvents s = [Event.seedRandom s, Event.seedTorch s] := by
  unfold seedEvents
  rw [if_pos h]

theorem isLoopEvent_not_seed (ev : Event) (h : isLoopEvent ev = true) :
    isSeedEvent ev = false := by
  cases ev <;> simp_all [isLoopEvent, isSeedEvent]

theorem mainRun_seedless (cfg : Config) (env : Env) (h : ¬ cfg.seed > 0) :
    ∀ ev ∈ (mainRun cfg env).trace, isSeedEvent ev = false := by
  intro ev hev
  by_cases hgpu : env.cuda_device_count ≠ cfg.GPUS.length
  · simp only [mainRun, if_pos hgpu] at hev
    rw [seedEvents_of_nonpos cfg.seed h] at hev
    simp at hev
    rcases hev with h1 | h1 | h1 <;> subst h1 <;> rfl
  · cases hbo : buildOpt cfg with
    | error err =>
      simp only [mainRun, if_neg hgpu, hbo] at hev
      rw [seedEvents_of_nonpos cfg.seed h] at hev
      simp at hev
      rcases hev with h1 | h1 | h1 | h1 | h1 | h1 <;> subst h1 <;> rfl
    | ok pg0 =>
      rcases mainRun_trace_eq cfg env pg0 hgpu hbo with ⟨tail, htr, htail⟩
      rw [htr] at hev
      rw [seedEvents_of_nonpos cfg.seed h] at hev
      simp only [List.nil_append, List.mem_append] at hev
      rcases hev with ((h1 | h1) | h1) | h1
      · simp at h1
        rcases h1 with h1 | h1 | h1 | h1 | h1 | h1 | h1 <;> subst h1 <;> rfl
      · rcases resumeState_events_load cfg env ev h1 with ⟨c, rfl⟩
        rfl
      · exact isLoopEvent_not_seed ev (runChunks_isLoopEvent cfg env 0 0 _ _ ev h1)
      · rcases htail with rfl | rfl
        · simp at h1
        · simp at h1
          subst h1
          rfl

theorem mem_seedEvents (s : Int) (ev : Event) (h : ev ∈ seedEvents s) :
    ev = Event.seedRandom s ∨ ev = Event.seedTorch s := by
  unfold seedEvents at h
  split at h
  · simpa using h
  · simp at h

theorem mainRun_mismatch_trace (cfg : Config) (env : Env)
    (h : env.cuda_device_count ≠ cfg.GPUS.length) :
    (mainRun cfg env).trace =
      seedEvents cfg.seed
        ++ [Event.createLogger, Event.createWriter, Event.printGpuMismatch] := by
  simp [mainRun, h]

theorem mainRun_checkpoint_profile (cfg : Config) (env : Env) (c : Checkpoint)
    (h : Event.saveCheckpoint c ∈ (mainRun cfg env).trace) :
    c.flops = 0 ∧ c.num_params = 0 := by
  by_cases hgpu : env.cuda_device_count ≠ cfg.GPUS.length
  · rw [mainRun_mismatch_trace cfg env hgpu] at h
    rcases List.mem_append.mp h with h1 | h1
    · rcases mem_seedEvents _ _ h1 with h2 | h2 <;> simp at h2
    · simp at h1
  · cases hbo : buildOpt cfg with
    | error err =>
      simp only [mainRun, if_neg hgpu, hbo] at h
      rcases List.mem_append.mp h with h1 | h1
      · rcases List.mem_append.mp h1 with h2 | h2
        · rcases mem_seedEvents _ _ h2 with h3 | h3 <;> simp at h3
        · simp at h2
      · simp at h1
    | ok pg0 =>
      rcases mainRun_trace_eq cfg env pg0 hgpu hbo with ⟨tail, htr, htail⟩
      rw [htr] at h
      simp only [List.mem_append] at h
      rcases h with (((h1 | h1) | h1) | h1) | h1
      · rcases mem_seedEvents _ _ h1 with h2 | h2 <;> simp at h2
      · simp at h1
      · rcases resumeState_events_load cfg env _ h1 with ⟨c2, hc2⟩
        simp at hc2
      · exact runChunks_checkpoint_mem cfg env 0 0 _ _ c h1
      · rcases htail with rfl | rfl <;> simp at h1

theorem mainRun_match_no_print (cfg : Config) (env : Env)
    (h : env.cuda_device_count = cfg.GPUS.length) :
    Event.printGpuMismatch ∉ (mainRun cfg env).trace
      ∧ Event.buildModel ∈ (mainRun cfg env).trace := by
  have hgpu : ¬ env.cuda_device_count ≠ cfg.GPUS.length := by simp [h]
  cases hbo : buildOpt cfg with
  | error err =>
    constructor
    · intro hev
      simp only [mainRun, if_neg hgpu, hbo] at hev
      rcases List.mem_append.mp hev with h1 | h1
      · rcases List.mem_append.mp h1 with h2 | h2
        · rcases mem_seedEvents _ _ h2 with h3 | h3 <;> simp at h3
        · simp at h2
      · simp at h1
    · simp only [mainRun, if_neg hgpu, hbo]
      simp
  | ok pg0 =>
    rcases mainRun_trace_eq cfg env pg0 hgpu hbo with ⟨tail, htr, htail⟩
    constructor
    · intro hev
      rw [htr] at hev
      simp only [List.mem_append] at hev
      rcases hev with (((h1 | h1) | h1) | h1) | h1
      · rcases mem_seedEvents _ _ h1 with h2 | h2 <;> simp at h2
      · simp at h1
      · rcases resumeState_events_load cfg env _ h1 with ⟨c2, hc2⟩
        simp at hc2
      · have := runChunks_isLoopEvent cfg env 0 0 _ _ _ h1
        simp [isLoopEvent] at this
      · rcases htail with rfl | rfl <;> simp at h1
    · rw [htr]
      simp

theorem mainRun_no_unbound (cfg : Config) (env : Env) :
    (mainRun cfg env).result ≠ Except.error PyError.unboundLocalError := by
  rw [mainRun_result_cases]
  split_ifs <;> simp

/-! ## Further concrete instances used by witnesses and counterexamples -/

/-- Environment with two CUDA devices (mismatching cfgA's single GPU). -/
def envM : Env := { envA with cuda_device_count := 2 }

/-- Configuration requesting an unsupported optimizer. -/
def cfgBadOpt : Config := { cfgA with OPTIMIZER := "rmsprop" }

/-- Configuration with `--seed 0` (no seeding is performed). -/
def cfgSeed0 : Config := { cfgA with seed := 0 }

/-- Configuration with the cosine scheduler enabled. -/
def cfgS : Config := { cfgA with SCHEDULER := true, END_EPOCH := 10 }

/-- The checkpoint cfgA/envA write at the end of epoch 0. -/
def ck0 : Checkpoint :=
  { epoch := 1, best_mIoU := 0, state_dict := 1, optimizer := 1,
    flops := 0, num_params := 0 }

/-- The event chunk of epoch 0 under cfgA/envA. -/
def ch0 : List Event :=
  [Event.trainCall 0 1, Event.validateCall 0 1,
   Event.saveCheckpoint ck0, Event.saveBest 0]

/-- cfgA with resume requested. -/
def cfgR : Config := { cfgA with RESUME := true }

/-- envA with ck0 present on disk. -/
def envR : Env := { envA with disk_checkpoint := some ck0 }

/-! ## Claim theorems -/

/-- C1: when the visible CUDA device count differs from the number of
configured GPUs, `main` prints 'The gpu numbers do not match!' and
returns 0 before any model, dataset or optimizer construction and before
any torch.save; when the counts agree the check changes nothing — the
mismatch message never appears and execution reaches the model build. -/
theorem gpu_mismatch_check (cfg : Config) (env : Env) :
    (env.cuda_device_count ≠ cfg.GPUS.length →
      (mainRun cfg env).result = Except.ok (some 0)
        ∧ Event.printGpuMismatch ∈ (mainRun cfg env).trace
        ∧ ∀ ev ∈ (mainRun cfg env).trace, isConstructionOrSave ev = false)
    ∧ (env.cuda_device_count = cfg.GPUS.length →
      Event.printGpuMismatch ∉ (mainRun cfg env).trace
        ∧ Event.buildModel ∈ (mainRun cfg env).trace) := by
  constructor
  · intro h
    refine ⟨?_, ?_, ?_⟩
    · rw [mainRun_result_cases, if_pos h]
    · rw [mainRun_mismatch_trace cfg env h]
      simp
    · intro ev hev
      rw [mainRun_mismatch_trace cfg env h] at hev
      rcases List.mem_append.mp hev with h1 | h1
      · rcases mem_seedEvents _ _ h1 with rfl | rfl <;> rfl
      · simp at h1
        rcases h1 with rfl | rfl | rfl <;> rfl
  · exact mainRun_match_no_print cfg env

/-- Witness for C1 at a concrete mismatching input (2 devices, 1 GPU). -/
theorem gpu_mismatch_check_witness :
    envM.cuda_device_count ≠ cfgA.GPUS.length
      ∧ (mainRun cfgA envM).result = Except.ok (some 0)
      ∧ Event.printGpuMismatch ∈ (mainRun cfgA envM).trace := by
  have h := (gpu_mismatch_check cfgA envM).1 (by decide)
  exact ⟨by decide, h.1, h.2.1⟩

/-- C2 counterexample: with matching GPU counts and
`TRAIN.OPTIMIZER = "rmsprop"`, `main` itself raises
ValueError('Only Support SGD optimizer') at line 182 — so the GPU-count
test is not the only explicit error path and a branch of main does raise. -/
theorem main_raises_on_bad_optimizer :
    (mainRun cfgBadOpt envA).result
      = Except.error (PyError.valueError "Only Support SGD optimizer") := by
  rfl

/-- C2 amended: main has exactly two explicit error paths — the GPU-count
early return and the unsupported-optimizer ValueError; the only exception
main itself raises is that ValueError, raised exactly when the GPU check
passes and OPTIMIZER is neither 'sgd' nor 'adam'. -/
theorem main_only_explicit_error (cfg : Config) (env : Env) :
    (∀ err, (mainRun cfg env).result = Except.error err →
        err = PyError.valueError "Only Support SGD optimizer")
    ∧ ((mainRun cfg env).result
          = Except.error (PyError.valueError "Only Support SGD optimizer")
        ↔ env.cuda_device_count = cfg.GPUS.length
            ∧ cfg.OPTIMIZER ≠ "sgd" ∧ cfg.OPTIMIZER ≠ "adam") := by
  rw [mainRun_result_cases]
  constructor
  · intro err
    split_ifs <;> simp_all
  · split_ifs with h1 h2
    · simp only [ne_eq] at h1
      constructor
      · intro hfalse
        exact absurd hfalse (by simp)
      · rintro ⟨hc, _⟩
        exact absurd hc h1
    · constructor
      · intro hfalse
        exact absurd hfalse (by simp)
      · rintro ⟨_, hsgd, hadam⟩
        rcases h2 with h2 | h2
        · exact absurd h2 hsgd
        · exact absurd h2 hadam
    · push_neg at h1 h2
      exact ⟨fun _ => ⟨h1, h2.1, h2.2⟩, fun _ => rfl⟩

/-- Witness for C2's amended statement at the concrete bad-optimizer
configuration. -/
theorem main_only_explicit_error_witness :
    envA.cuda_device_count = cfgBadOpt.GPUS.length
      ∧ cfgBadOpt.OPTIMIZER ≠ "sgd" ∧ cfgBadOpt.OPTIMIZER ≠ "adam"
      ∧ (mainRun cfgBadOpt envA).result
          = Except.error (PyError.valueError "Only Support SGD optimizer") := by
  refine ⟨by decide, by decide, by decide, ?_⟩
  exact (main_only_explicit_error cfgBadOpt envA).2.mpr
    ⟨by decide, by decide, by decide⟩

/-- C3: with TRAIN.SCHEDULER enabled, every loop epoch e < 5 sets every
optimizer parameter group's learning rate to base_lr * (e+1)/5 (reaching
base_lr at epoch 4), and every epoch e >= 5 instead steps the cosine
scheduler, which is constructed with T_max = END_EPOCH - 5 and
eta_min = 1e-6; with SCHEDULER disabled the learning rate passed to
train is TRAIN.LR. -/
theorem lr_schedule (cfg : Config) (env : Env) (f n e : Nat) (st : LoopState) :
    (cfg.SCHEDULER = true → e < warmup_epochs →
        Event.warmupSetLR (cfg.LR * (e + 1) / warmup_epochs)
            ∈ (loopBody cfg env f n e st).1
          ∧ Event.schedulerStep ∉ (loopBody cfg env f n e st).1
          ∧ ∀ st1, (loopBody cfg env f n e st).2 = Except.ok st1 →
              ∀ lr ∈ st1.param_groups, lr = cfg.LR * (e + 1) / warmup_epochs)
    ∧ (cfg.SCHEDULER = true → warmup_epochs ≤ e →
        Event.schedulerStep ∈ (loopBody cfg env f n e st).1
          ∧ (∀ q, Event.warmupSetLR q ∉ (loopBody cfg env f n e st).1)
          ∧ ∀ st1, (loopBody cfg env f n e st).2 = Except.ok st1 →
              st1.sched.steps = st.sched.steps + 1
                ∧ st1.sched.T_max = st.sched.T_max
                ∧ st1.sched.eta_min = st.sched.eta_min)
    ∧ (initScheduler cfg).T_max = (cfg.END_EPOCH : Int) - 5
    ∧ (initScheduler cfg).eta_min = 1 / 1000000
    ∧ (adjust_learning_rate st.param_groups 4 warmup_epochs cfg.LR).1 = cfg.LR
    ∧ (cfg.SCHEDULER = false →
        Event.trainCall e cfg.LR ∈ (loopBody cfg env f n e st).1) := by
  refine ⟨?_, ?_, rfl, rfl, ?_, ?_⟩
  · intro hs hw
    exact loopBody_warmup cfg env f n e st hs hw
  · intro hs hw
    exact loopBody_schedStep cfg env f n e st hs hw
  · unfold adjust_learning_rate warmup_epochs
    norm_num
  · intro hs
    exact (loopBody_noSched cfg env f n e st hs).1

/-- Witness for C3: concrete warm-up epoch 2 and no-scheduler epoch 0. -/
theorem lr_schedule_witness :
    cfgS.SCHEDULER = true ∧ 2 < warmup_epochs
      ∧ Event.warmupSetLR (cfgS.LR * (2 + 1) / warmup_epochs)
          ∈ (loopBody cfgS envA 0 0 2 stA).1
      ∧ cfgA.SCHEDULER = false
      ∧ Event.trainCall 0 cfgA.LR ∈ (loopBody cfgA envA 0 0 0 stA).1 := by
  refine ⟨rfl, by decide, ?_, rfl, ?_⟩
  · exact ((lr_schedule cfgS envA 0 0 2 stA).1 rfl (by decide)).1
  · exact (lr_schedule cfgA envA 0 0 0 stA).2.2.2.2.2 rfl

/-- C4: every iteration of the epoch loop calls train exactly once and
saves checkpoint.pth.tar exactly once; validate is called exactly when
the just-resumed flag is set, or the epoch is a multiple of 5 below
real_end - 100, or the epoch is at least real_end - 100; and the
just-resumed flag is always cleared by the end of the iteration. -/
theorem epoch_iteration_effects (cfg : Config) (env : Env) (f n e : Nat)
    (st : LoopState) :
    countTrain (loopBody cfg env f n e st).1 = 1
      ∧ (checkpointsOf (loopBody cfg env f n e st).1).length = 1
      ∧ countVal (loopBody cfg env f n e st).1
          = (if st.flag_rm = true
                ∨ (e % 5 = 0 ∧ (e : Int) < (real_end cfg : Int) - 100)
                ∨ (real_end cfg : Int) - 100 ≤ (e : Int)
             then 1 else 0)
      ∧ (∀ st1, (loopBody cfg env f n e st).2 = Except.ok st1 →
          st1.flag_rm = false) := by
  refine ⟨loopBody_countTrain cfg env f n e st, ?_, ?_, ?_⟩
  · rw [loopBody_checkpoints]
    rfl
  · rw [loopBody_countVal]
    have hiff := validateCond_iff st.flag_rm e (real_end cfg)
    by_cases hv : validateCond st.flag_rm e (real_end cfg) = true
    · rw [if_pos hv, if_pos (hiff.mp hv)]
    · rw [if_neg (by simpa using hv), if_neg (fun hp => hv (hiff.mpr hp))]
  · intro st1 h
    exact loopBody_flag_cleared cfg env f n e st st1 h

/-- Witness for C4 at epoch 0 of the concrete fresh run. -/
theorem epoch_iteration_effects_witness :
    countTrain (loopBody cfgA envA 0 0 0 stA).1 = 1
      ∧ (checkpointsOf (loopBody cfgA envA 0 0 0 stA).1).length = 1
      ∧ countVal (loopBody cfgA envA 0 0 0 stA).1 = 1 := by
  have h := epoch_iteration_effects cfgA envA 0 0 0 stA
  refine ⟨h.1, h.2.1, ?_⟩
  rw [h.2.2.1, if_pos (by decide)]

/-- C5: every checkpoint dict written by the loop has exactly the six
keys epoch, best_mIoU, state_dict, optimizer, flops, num_params in that
order, with 'epoch' one past the finished epoch index, and resume reads
back exactly the four keys best_mIoU, epoch, state_dict, optimizer. -/
theorem checkpoint_format :
    (∀ c : Checkpoint, c.toDict.map Prod.fst = checkpointKeys)
      ∧ (∀ (cfg : Config) (env : Env) (f n e : Nat) (st : LoopState)
           (c : Checkpoint),
          Event.saveCheckpoint c ∈ (loopBody cfg env f n e st).1 →
            c.epoch = e + 1)
      ∧ resumeReadKeys.toFinset
          = ({"best_mIoU", "epoch", "state_dict", "optimizer"} : Finset String) := by
  refine ⟨fun c => rfl, ?_, by decide⟩
  intro cfg env f n e st c h
  rw [loopBody_saveCheckpoint_eq cfg env f n e st c h]

/-- Witness for C5: the concrete epoch-0 checkpoint has epoch field 1. -/
theorem checkpoint_format_witness :
    Event.saveCheckpoint ck0 ∈ (loopBody cfgA envA 0 0 0 stA).1
      ∧ ck0.epoch = 0 + 1
      ∧ ck0.toDict.map Prod.fst = checkpointKeys := by
  have hev : (loopBody cfgA envA 0 0 0 stA).1 = ch0 := by rfl
  have hmem : Event.saveCheckpoint ck0 ∈ (loopBody cfgA envA 0 0 0 stA).1 := by
    rw [hev]
    simp [ch0]
  exact ⟨hmem, checkpoint_format.2.1 cfgA envA 0 0 0 stA ck0 hmem,
         checkpoint_format.1 ck0⟩

theorem loopEpochs_append (s m t : Nat) (h1 : s ≤ m) (h2 : m ≤ t) :
    loopEpochs s m ++ loopEpochs m t = loopEpochs s t := by
  unfold loopEpochs
  have h3 := List.range'_append s (m - s) (t - m) 1
  rw [one_mul] at h3
  have hsm : s + (m - s) = m := by omega
  rw [hsm] at h3
  have htm : (t - m) + (m - s) = t - s := by omega
  rw [htm] at h3
  exact h3

theorem loopEpochs_nodup (s t : Nat) : (loopEpochs s t).Nodup := by
  unfold loopEpochs
  exact List.nodup_range' _ _

/-- C6: a checkpoint saved at the end of epoch e, when found on disk by a
later run with TRAIN.RESUME set, restores the saved best score, model
weights and optimizer state, and the later run's loop starts at epoch
e + 1 — the epochs of the two runs concatenate without repetition or gap;
with RESUME set but no file, training starts at epoch 0 with best 0. -/
theorem save_resume_roundtrip (cfg : Config) (env : Env) (f n e : Nat)
    (st : LoopState) (c : Checkpoint)
    (hsave : Event.saveCheckpoint c ∈ (loopBody cfg env f n e st).1)
    (cfg2 : Config) (env2 : Env) (hres : cfg2.RESUME = true) :
    (env2.disk_checkpoint = some c →
        (resumeState cfg2 env2).best_mIoU = st.best_mIoU
          ∧ (resumeState cfg2 env2).model_sd = c.state_dict
          ∧ (resumeState cfg2 env2).opt_sd = c.optimizer
          ∧ (resumeState cfg2 env2).last_epoch = e + 1
          ∧ ∀ s t, s ≤ e + 1 → e + 1 ≤ t →
              loopEpochs s (e + 1) ++ loopEpochs (e + 1) t = loopEpochs s t
                ∧ (loopEpochs s t).Nodup)
      ∧ (env2.disk_checkpoint = none →
          (resumeState cfg2 env2).best_mIoU = 0
            ∧ (resumeState cfg2 env2).last_epoch = 0) := by
  have hc := loopBody_saveCheckpoint_eq cfg env f n e st c hsave
  constructor
  · intro hdisk
    have h1 : resumeState cfg2 env2
        = { best_mIoU := c.best_mIoU, last_epoch := c.epoch,
            model_sd := c.state_dict, opt_sd := c.optimizer,
            events := [Event.loadCheckpoint c] } := by
      unfold resumeState
      rw [hres, hdisk]
      rfl
    rw [h1]
    refine ⟨by rw [hc], rfl, rfl, by rw [hc], ?_⟩
    intro s t hs ht
    exact ⟨loopEpochs_append s (e + 1) t hs ht, loopEpochs_nodup s t⟩
  · intro hdisk
    unfold resumeState
    rw [hres, hdisk]
    exact ⟨rfl, rfl⟩

/-- Witness for C6: saving at epoch 0 and resuming yields last_epoch 1. -/
theorem save_resume_roundtrip_witness :
    cfgR.RESUME = true
      ∧ envR.disk_checkpoint = some ck0
      ∧ (resumeState cfgR envR).best_mIoU = stA.best_mIoU
      ∧ (resumeState cfgR envR).last_epoch = 0 + 1
      ∧ loopEpochs 0 (0 + 1) ++ loopEpochs (0 + 1) 5 = loopEpochs 0 5 := by
  have hmem : Event.saveCheckpoint ck0 ∈ (loopBody cfgA envA 0 0 0 stA).1 := by
    have hev : (loopBody cfgA envA 0 0 0 stA).1 = ch0 := by rfl
    rw [hev]
    simp [ch0]
  have h := (save_resume_roundtrip cfgA envA 0 0 0 stA ck0 hmem cfgR envR rfl).1 rfl
  exact ⟨rfl, rfl, h.1, h.2.2.2.1,
         (h.2.2.2.2 0 5 (by omega) (by omega)).1⟩

/-- C7 counterexample: in a one-epoch fresh run whose single validate
call reports mean IoU 1, the checkpoint written during that epoch stores
best_mIoU 0, not the maximum (1) of the validations up to and including
that epoch — the checkpoint is saved before best_mIoU is updated. -/
theorem checkpoint_best_lags_validation :
    valsOf (mainRun cfgA envA).trace = [1]
      ∧ (checkpointsOf (mainRun cfgA envA).trace).map Checkpoint.best_mIoU = [0]
      ∧ (0 : ℚ) ≠ 1 := by
  refine ⟨by rfl, by rfl, by norm_num⟩

/-- C7 amended: the best_mIoU stored in the checkpoint of each loop
iteration equals the running maximum of the initial best score and the
mean IoUs of all validate calls of iterations strictly before it (the
current iteration's validation is folded in only after the checkpoint
write); that running maximum never decreases; and best.pt is written
exactly on iterations whose validate call strictly exceeds it. -/
theorem checkpoint_best_running_max (cfg : Config) (env : Env) (f n : Nat)
    (es : List Nat) (st : LoopState)
    (hinv : ∀ v, st.mean_IoU = some v → v ≤ st.best_mIoU) :
    (∀ i ch, ((runChunks cfg env f n es st).1)[i]? = some ch →
        (checkpointsOf ch).map Checkpoint.best_mIoU
            = [runningBest st.best_mIoU ((runChunks cfg env f n es st).1.take i)]
          ∧ (bestSavesOf ch ≠ [] ↔
              ∃ v ∈ valsOf ch,
                runningBest st.best_mIoU
                  ((runChunks cfg env f n es st).1.take i) < v))
      ∧ (∀ i j, i ≤ j →
          runningBest st.best_mIoU ((runChunks cfg env f n es st).1.take i)
            ≤ runningBest st.best_mIoU ((runChunks cfg env f n es st).1.take j)) :=
  ⟨runChunks_best_invariant cfg env f n es st hinv,
   fun i j hij => runningBest_take_mono _ _ i j hij⟩

/-- Witness for C7's amended statement on the concrete one-epoch run. -/
theorem checkpoint_best_running_max_witness :
    (∀ v, stA.mean_IoU = some v → v ≤ stA.best_mIoU)
      ∧ ((runChunks cfgA envA 0 0 [0] stA).1)[0]? = some ch0
      ∧ (checkpointsOf ch0).map Checkpoint.best_mIoU
          = [runningBest stA.best_mIoU ((runChunks cfgA envA 0 0 [0] stA).1.take 0)] := by
  have hinv : ∀ v, stA.mean_IoU = some v → v ≤ stA.best_mIoU := by
    intro v hv
    simp [stA] at hv
  have hch : ((runChunks cfgA envA 0 0 [0] stA).1)[0]? = some ch0 := by rfl
  exact ⟨hinv, hch,
    ((checkpoint_best_running_max cfgA envA 0 0 [0] stA hinv).1 0 ch0 hch).1⟩

/-- C8 counterexample: invoked with --seed 0, the script performs no
seeding at all even though the run proceeds — seeding is conditional on
a positive seed, not unconditional. -/
theorem no_seeding_when_seed_zero :
    cfgSeed0.seed = 0
      ∧ (mainRun cfgSeed0 envA).trace ≠ []
      ∧ (mainRun cfgSeed0 envA).trace.countP isSeedEvent = 0 := by
  refine ⟨rfl, ?_, by rfl⟩
  intro h
  have h4 : (mainRun cfgSeed0 envA).trace = [] → False := by
    intro h2
    have h3 : Event.createLogger ∈ (mainRun cfgSeed0 envA).trace := by
      have he : (mainRun cfgSeed0 envA).trace
          = Event.createLogger :: ((mainRun cfgSeed0 envA).trace.drop 1) := by rfl
      rw [he]
      exact List.mem_cons_self _ _
    rw [h2] at h3
    simp at h3
  exact h4 h

/-- C8 amended: whenever the parsed seed is positive (the default 304
is), random.seed and torch.manual_seed are called with it before the
logger, writer and any model or dataset construction; with a
non-positive seed no seeding happens at all. -/
theorem seeding_guarded_by_positive_seed (cfg : Config) (env : Env) :
    (cfg.seed > 0 →
        (mainRun cfg env).trace.take 4
          = [Event.seedRandom cfg.seed, Event.seedTorch cfg.seed,
             Event.createLogger, Event.createWriter])
      ∧ (¬ cfg.seed > 0 → (mainRun cfg env).trace.countP isSeedEvent = 0)
      ∧ default_seed = 304 ∧ default_seed > 0 := by
  refine ⟨?_, ?_, rfl, by decide⟩
  · intro hpos
    by_cases hgpu : env.cuda_device_count ≠ cfg.GPUS.length
    · rw [mainRun_mismatch_trace cfg env hgpu, seedEvents_of_pos _ hpos]
      rfl
    · cases hbo : buildOpt cfg with
      | error err =>
        simp only [mainRun, if_neg hgpu, hbo]
        rw [seedEvents_of_pos _ hpos]
        rfl
      | ok pg0 =>
        rcases mainRun_trace_eq cfg env pg0 hgpu hbo with ⟨tail, htr, _⟩
        rw [htr, seedEvents_of_pos _ hpos]
        rfl
  · intro hnp
    rw [List.countP_eq_zero]
    intro ev hev
    have := mainRun_seedless cfg env hnp ev hev
    simp [this]

/-- Witness for C8's amended statement at the default positive seed. -/
theorem seeding_guarded_by_positive_seed_witness :
    cfgA.seed > 0
      ∧ (mainRun cfgA envA).trace.take 4
          = [Event.seedRandom cfgA.seed, Event.seedTorch cfgA.seed,
             Event.createLogger, Event.createWriter] := by
  exact ⟨by decide, (seeding_guarded_by_positive_seed cfgA envA).1 (by decide)⟩

/-- C9: every run that passes the GPU check with a supported optimizer
and enters the epoch loop validates on its very first iteration — the
just-resumed flag forces it when resuming, and a fresh run starts at
epoch 0 which satisfies the schedule for every real_end — so the
validation metrics are assigned before the best-model comparison reads
them and the run never hits an unbound-local error. -/
theorem first_epoch_always_validates (cfg : Config) (env : Env)
    (hgpu : env.cuda_device_count = cfg.GPUS.length)
    (hopt : cfg.OPTIMIZER = "sgd" ∨ cfg.OPTIMIZER = "adam")
    (henter : (resumeState cfg env).last_epoch < real_end cfg) :
    validateCond cfg.RESUME (resumeState cfg env).last_epoch (real_end cfg) = true
      ∧ Event.validateCall (resumeState cfg env).last_epoch
          (env.valIoU (resumeState cfg env).last_epoch) ∈ (mainRun cfg env).trace
      ∧ (mainRun cfg env).result ≠ Except.error PyError.unboundLocalError := by
  have hgpu2 : ¬ env.cuda_device_count ≠ cfg.GPUS.length := by simp [hgpu]
  rcases (buildOpt_ok_iff cfg).mpr hopt with ⟨pg0, hpg⟩
  have hval : validateCond cfg.RESUME (resumeState cfg env).last_epoch
      (real_end cfg) = true := initLoopState_first_validates cfg env pg0
  refine ⟨hval, ?_, mainRun_no_unbound cfg env⟩
  rcases mainRun_trace_eq cfg env pg0 hgpu2 hpg with ⟨tail, htr, _⟩
  rw [htr]
  have hmem0 : Event.validateCall (resumeState cfg env).last_epoch
      (env.valIoU (resumeState cfg env).last_epoch)
        ∈ (loopBody cfg env 0 0 (resumeState cfg env).last_epoch
            (initLoopState cfg env pg0)).1 :=
    loopBody_validateCall_mem cfg env 0 0 _ _ hval
  have hflat : Event.validateCall (resumeState cfg env).last_epoch
      (env.valIoU (resumeState cfg env).last_epoch)
        ∈ (runChunks cfg env 0 0
            (loopEpochs (resumeState cfg env).last_epoch (real_end cfg))
            (initLoopState cfg env pg0)).1.flatten := by
    rw [loopEpochs_cons _ _ henter]
    cases hb : loopBody cfg env 0 0 (resumeState cfg env).last_epoch
        (initLoopState cfg env pg0) with
    | mk evs r =>
      have hm : Event.validateCall (resumeState cfg env).last_epoch
          (env.valIoU (resumeState cfg env).last_epoch) ∈ evs := by
        rw [hb] at hmem0
        exact hmem0
      cases r with
      | error err =>
        simp only [runChunks, hb]
        simpa using hm
      | ok st1 =>
        simp only [runChunks, hb]
        simp only [List.flatten_cons, List.mem_append]
        exact Or.inl hm
  simp only [List.mem_append]
  exact Or.inl (Or.inr hflat)

/-- Witness for C9 on the concrete fresh one-epoch run. -/
theorem first_epoch_always_validates_witness :
    envA.cuda_device_count = cfgA.GPUS.length
      ∧ (resumeState cfgA envA).last_epoch < real_end cfgA
      ∧ validateCond cfgA.RESUME (resumeState cfgA envA).last_epoch
          (real_end cfgA) = true
      ∧ Event.validateCall (resumeState cfgA envA).last_epoch
          (envA.valIoU (resumeState cfgA envA).last_epoch)
            ∈ (mainRun cfgA envA).trace := by
  have h := first_epoch_always_validates cfgA envA (by decide) (Or.inl rfl)
    (by decide)
  exact ⟨by decide, by decide, h.1, h.2.1⟩

/-- C10: every checkpoint the script writes records flops = 0 and
num_params = 0 — profiling is disabled, so the counts are constant. -/
theorem checkpoint_profile_constants (cfg : Config) (env : Env) :
    ∀ c : Checkpoint, Event.saveCheckpoint c ∈ (mainRun cfg env).trace →
      c.flops = 0 ∧ c.num_params = 0 :=
  fun c h => mainRun_checkpoint_profile cfg env c h

/-- Witness for C10 on the concrete run's epoch-0 checkpoint. -/
theorem checkpoint_profile_constants_witness :
    Event.saveCheckpoint ck0 ∈ (mainRun cfgA envA).trace
      ∧ ck0.flops = 0 ∧ ck0.num_params = 0 := by
  have hmem : Event.saveCheckpoint ck0 ∈ (mainRun cfgA envA).trace := by
    have he : (mainRun cfgA envA).trace
        = [Event.seedRandom 304, Event.seedTorch 304, Event.createLogger,
           Event.createWriter, Event.buildModel, Event.buildSourceDataset,
           Event.buildTargetDataset, Event.buildTestDataset,
           Event.buildOptimizer "sgd", Event.trainCall 0 1,
           Event.validateCall 0 1, Event.saveCheckpoint ck0,
           Event.saveBest 0, Event.saveFinal] := by rfl
    rw [he]
    simp
  exact ⟨hmem, checkpoint_profile_constants cfgA envA ck0 hmem⟩

end TrainDACS
